import Mathlib

/-!
Verification development for the srtgo GUI settings-and-launch tool
(src/srtgo/gui_standalone.py and src/srtgo/gui.py).

The development shallowly embeds the pieces of the program with non-trivial
contracts:

* the `FileKeyring` file-based credential store (gui_standalone.py lines
  20-54): a single JSON object keyed by `service ++ ":" ++ username`,
  where a missing or unparseable config file is read as the empty store;
* the settings accessors `get_station` / `DEFAULT_STATIONS`
  (gui_standalone.py lines 80-95);
* `StationSetupWindow.save_stations` (gui_standalone.py lines 625-638,
  identical in gui.py lines 519-532);
* `ReservationWindow.start_booking` / `save_settings` / `stop_booking` /
  `run_reservation` (gui_standalone.py lines 958-1056; the validation
  block is identical in gui.py lines 272-288).

Python dictionaries are embedded as association lists with the
first-match lookup and replace-or-append update of a dict; the JSON file
on disk is a `FileState` that is either missing, present-but-unparseable,
or a parsed config.  Tkinter side effects (button states, the status
text widget) are embedded as fields of an explicit `Session` record, and
the order of side effects in `start_booking` is recorded as a trace of
`Step` events.  Timestamps prepended by `log_message` are real-time data
and are not modelled; a log entry is its message string.
-/

/-- One parsed JSON config object: an association list from flattened
`service:username` keys to stored string values, as managed by
`FileKeyring._load_config` / `_save_config`. -/
def Config : Type := List (String × String)

/-- Dict lookup (`config.get(key)` in `FileKeyring.get_password`):
first binding wins, absent key gives `none`. -/
def configGet : Config → String → Option String
  | [], _ => none
  | (k', v') :: rest, k => if k' = k then some v' else configGet rest k

/-- Dict update (`config[key] = value` in `FileKeyring.set_password`):
replace the existing binding in place, or append a new one. -/
def configSet : Config → String → String → Config
  | [], k, v => [(k, v)]
  | (k', v') :: rest, k, v =>
    if k' = k then (k, v) :: rest else (k', v') :: configSet rest k v

/-- State of the fallback config file `~/.srtgo/config.json`: missing,
present but unparseable JSON, or a parsed config object.
`FileKeyring._load_config` treats the first two cases alike (its bare
`except:` catches both the open failure and the parse failure). -/
inductive FileState : Type
  | missing : FileState
  | corrupt : FileState
  | valid : Config → FileState

/-- `FileKeyring._load_config`: parse the file, and return the empty
store on a missing file or any parse failure — it never raises. -/
def loadConfig : FileState → Config
  | FileState.missing => []
  | FileState.corrupt => []
  | FileState.valid c => c

/-- The flattened storage key `f"{service}:{username}"` used by every
`FileKeyring` operation. -/
def flatKey (service username : String) : String :=
  service ++ ":" ++ username

/-- `FileKeyring.get_password(service, username)`. -/
def get_password (f : FileState) (service username : String) : Option String :=
  configGet (loadConfig f) (flatKey service username)

/-- `FileKeyring.set_password(service, username, password)`: load, mutate
the in-memory dict, rewrite the whole file.  The write is modelled as
succeeding; the result is always a parseable file. -/
def set_password (f : FileState) (service username password : String) : FileState :=
  FileState.valid (configSet (loadConfig f) (flatKey service username) password)

/-- Python string truthiness test `not x` applied to an optional string:
true exactly on `None` and the empty string. -/
def optFalsy : Option String → Bool
  | none => true
  | some v => v = ""

/-- The two rail carriers handled by the GUI (the keys of the `STATIONS`
dictionary; every call site passes one of the strings "SRT", "KTX"). -/
inductive RailType : Type
  | SRT : RailType
  | KTX : RailType
deriving DecidableEq

/-- The string a `RailType` contributes as the keyring service name. -/
def railKey : RailType → String
  | RailType.SRT => "SRT"
  | RailType.KTX => "KTX"

/-- The fixed per-carrier station catalog (module-level `STATIONS` dict,
gui_standalone.py lines 65-78). -/
def STATIONS : RailType → List String
  | RailType.SRT =>
    ["수서", "동탄", "평택지제", "경주", "곡성", "공주", "광주송정", "구례구",
     "김천(구미)", "나주", "남원", "대전", "동대구", "마산", "목포", "밀양",
     "부산", "서대구", "순천", "여수EXPO", "여천", "오송", "울산(통도사)",
     "익산", "전주", "정읍", "진영", "진주", "창원", "창원중앙", "천안아산", "포항"]
  | RailType.KTX =>
    ["서울", "용산", "영등포", "광명", "수원", "천안아산", "오송", "대전",
     "서대전", "김천구미", "동대구", "경주", "포항", "밀양", "구포", "부산",
     "울산(통도사)", "마산", "창원중앙", "경산", "논산", "익산", "정읍",
     "광주송정", "목포", "전주", "순천", "여수EXPO", "청량리", "강릉", "행신", "정동진"]

/-- The carrier-specific default selection (`DEFAULT_STATIONS`,
gui_standalone.py lines 80-83). -/
def DEFAULT_STATIONS : RailType → List String
  | RailType.SRT => ["수서", "대전", "동대구", "부산"]
  | RailType.KTX => ["서울", "대전", "동대구", "부산"]

/-- Python `str.split(",")` on the character list: cut at every comma;
the empty string splits to `[""]`, a trailing comma yields a final `""`.
Auxiliary accumulator holds the current field reversed. -/
def splitCommaAux : List Char → List Char → List String
  | [], acc => [String.mk acc.reverse]
  | c :: rest, acc =>
    if c = ',' then String.mk acc.reverse :: splitCommaAux rest []
    else splitCommaAux rest (c :: acc)

/-- Python `station_key.split(",")`.  (The comprehension
`[x for x in station_key.split(",")]` on line 94 is the identity.) -/
def pySplitComma (s : String) : List String :=
  splitCommaAux s.data []

/-- `get_station(rail_type)` (gui_standalone.py lines 86-95): the fixed
catalog paired with the persisted selection, falling back to the default
when the stored "station" value is `None` or empty. -/
def get_station (rt : RailType) (f : FileState) : List String × List String :=
  let stations := STATIONS rt
  let station_key := get_password f (railKey rt) "station"
  if optFalsy station_key then (stations, DEFAULT_STATIONS rt)
  else (stations, pySplitComma (station_key.getD ""))

/-- `StationSetupWindow.save_stations` (gui_standalone.py lines 625-638,
gui.py lines 519-532), applied to the list of checked stations: an empty
selection is rejected with an error box and nothing is written; otherwise
the comma-join is persisted under the "station" key.  The returned flag
records whether the save was accepted. -/
def save_stations (rt : RailType) (selected : List String) (f : FileState) :
    FileState × Bool :=
  if selected = [] then (f, false)
  else (set_password f (railKey rt) "station" (String.intercalate "," selected), true)

/-- Observable state of one `ReservationWindow` session: the `is_running`
cancellation flag, the enabled state of the start/stop buttons, and the
progress log (the status text widget; `log_message` prepends a real-time
timestamp, which is not modelled — an entry is its message string). -/
structure Session : Type where
  isRunning : Bool
  startEnabled : Bool
  stopEnabled : Bool
  log : List String
deriving DecidableEq

/-- `ReservationWindow.log_message`: append one entry to the progress log. -/
def logMessage (s : Session) (m : String) : Session :=
  { s with log := s.log ++ [m] }

/-- The message `stop_booking` logs on every call. -/
def stopMsg : String := "⏹️ 예매가 중지되었습니다."

/-- `ReservationWindow.stop_booking` (gui_standalone.py lines 999-1004):
clear the running flag, re-enable start, disable stop, and log a stop
message — the log entry is appended unconditionally on every call. -/
def stop_booking (s : Session) : Session :=
  logMessage { s with isRunning := false, startEnabled := true, stopEnabled := false } stopMsg

/-- The reservation form fields read by `start_booking` (departure,
arrival, date, time and the five per-category passenger counts). -/
structure ReservationForm : Type where
  departure : String
  arrival : String
  date : String
  time : String
  adult : Nat
  child : Nat
  senior : Nat
  disability1to3 : Nat
  disability4to6 : Nat
deriving DecidableEq

/-- `total_passengers` as computed in `start_booking`
(gui_standalone.py lines 965-967). -/
def totalPassengers (p : ReservationForm) : Nat :=
  p.adult + p.child + p.senior + p.disability1to3 + p.disability4to6

/-- The three validation rejections of `start_booking`, in source order. -/
inductive ValidationError : Type
  | sameStation : ValidationError
  | zeroPassengers : ValidationError
  | tooManyPassengers : ValidationError
deriving DecidableEq

/-- The validation block at the top of `start_booking`
(gui_standalone.py lines 960-975, identical in gui.py lines 273-288). -/
def validate (p : ReservationForm) : Option ValidationError :=
  if p.departure = p.arrival then some ValidationError.sameStation
  else if totalPassengers p = 0 then some ValidationError.zeroPassengers
  else if 10 ≤ totalPassengers p then some ValidationError.tooManyPassengers
  else none

/-- `ReservationWindow.save_settings` (gui_standalone.py lines 1006-1016):
persist all nine reservation parameters, numeric counts via `str(...)`. -/
def save_settings (rt : RailType) (p : ReservationForm) (f : FileState) : FileState :=
  let f1 := set_password f (railKey rt) "departure" p.departure
  let f2 := set_password f1 (railKey rt) "arrival" p.arrival
  let f3 := set_password f2 (railKey rt) "date" p.date
  let f4 := set_password f3 (railKey rt) "time" p.time
  let f5 := set_password f4 (railKey rt) "adult" (toString p.adult)
  let f6 := set_password f5 (railKey rt) "child" (toString p.child)
  let f7 := set_password f6 (railKey rt) "senior" (toString p.senior)
  let f8 := set_password f7 (railKey rt) "disability1to3" (toString p.disability1to3)
  set_password f8 (railKey rt) "disability4to6" (toString p.disability4to6)

/-- Side effects of `start_booking` whose relative order matters:
the `save_settings` call (line 978) and starting the background
reservation thread (lines 995-997). -/
inductive Step : Type
  | settingsSaved : Step
  | threadStarted : Step
deriving DecidableEq

/-- Result of one `start_booking` call: the store and session after the
call, the validation error shown (if any), and the trace of recorded
side effects in execution order. -/
structure StartResult : Type where
  store : FileState
  session : Session
  error : Option ValidationError
  events : List Step

/-- `ReservationWindow.start_booking` (gui_standalone.py lines 958-997).
On a validation failure an error box is shown and the method returns:
nothing is written, the session is untouched, no thread is started.
Otherwise settings are saved, the UI flips to running, the status text is
cleared, three progress messages are logged, and the thread is started. -/
def start_booking (rt : RailType) (p : ReservationForm) (f : FileState) (s : Session) :
    StartResult :=
  match validate p with
  | some e => ⟨f, s, some e, []⟩
  | none =>
    let f' := save_settings rt p f
    let s0 : Session := { isRunning := true, startEnabled := false, stopEnabled := true, log := [] }
    let s1 := logMessage s0 "🚀 예매를 시작합니다..."
    let s2 := logMessage s1 ("🚄 " ++ railKey rt ++ ": " ++ p.departure ++ " → " ++ p.arrival)
    let s3 := logMessage s2 ("👥 승객: 성인 " ++ toString p.adult ++ "명")
    ⟨f', s3, none, [Step.settingsSaved, Step.threadStarted]⟩

/-- The log entry of `run_reservation` when credentials are missing. -/
def errNoLogin : String := "❌ 로그인 정보를 찾을 수 없습니다."

/-- Result of the credential phase of `run_reservation`: the session
afterwards, and whether the Rail Client object was constructed (the only
path through which login/search calls can happen). -/
structure AuthResult : Type where
  session : Session
  railConstructed : Bool

/-- The credential phase of `ReservationWindow.run_reservation`
(gui_standalone.py lines 1018-1034): read id and password from the store;
if either is `None` or empty, log the failure, terminate the session via
`stop_booking` and return without constructing the Rail Client; otherwise
log the login attempt and construct the client. -/
def run_reservation_auth (rt : RailType) (f : FileState) (s : Session) : AuthResult :=
  let user_id := get_password f (railKey rt) "id"
  let password := get_password f (railKey rt) "pass"
  if optFalsy user_id || optFalsy password then
    ⟨stop_booking (logMessage s errNoLogin), false⟩
  else
    ⟨logMessage s "🔐 로그인 중...", true⟩

/-- The completion log entry of `run_reservation` (the step guarded by
the poll `if self.is_running` on gui_standalone.py lines 1048-1049). -/
def completionMsg : String := "🎫 예매 기능 구현 예정 - CLI 버전을 사용해주세요!"

/-- The poll point before the completion step: emit the completion entry
only if the cancellation flag has not been set. -/
def pollCompletion (s : Session) : Session :=
  if s.isRunning then logMessage s completionMsg else s

/-- The poll point in the `finally` block (lines 1054-1056): call
`stop_booking` only if the session is still running. -/
def finallyPoll (s : Session) : Session :=
  if s.isRunning then stop_booking s else s

/-- The successful-login path of `run_reservation` (gui_standalone.py
lines 1030-1056) as its sequence of session transformations.  The GUI
thread may interleave a `stop_booking` click anywhere between two steps;
`time.sleep(2)` is the identity on the observable session state. -/
def runnerSteps : List (Session → Session) :=
  [fun s => logMessage s "🔐 로그인 중...",
   fun s => logMessage s "✅ 로그인 성공!",
   fun s => logMessage s "🔍 열차 검색 중...",
   fun s => logMessage s "💡 실제 예매 기능은 CLI 버전에서 완전히 구현됩니다.",
   fun s => logMessage s "💡 현재 GUI는 데모 버전입니다.",
   id,
   pollCompletion,
   finallyPoll]

/-- Run a list of runner steps in order from a session state. -/
def runSteps (steps : List (Session → Session)) (s : Session) : Session :=
  steps.foldl (fun st g => g st) s

/-- One interleaved execution: the runner performs its first `i` steps,
the GUI thread's `stop_booking` click lands, and the runner performs the
remaining steps against the now-cleared flag. -/
def execWithStop (i : Nat) (s : Session) : Session :=
  runSteps (runnerSteps.drop i) (stop_booking (runSteps (runnerSteps.take i) s))

/-- A step is cancellation-safe when, run on a cancelled session whose
log has no completion entry, it keeps the flag cleared and emits no
completion entry. -/
def CancelSafe (g : Session → Session) : Prop :=
  ∀ s : Session, s.isRunning = false → completionMsg ∉ s.log →
    (g s).isRunning = false ∧ completionMsg ∉ (g s).log

/-- A step never emits the completion entry, cancelled or not. -/
def NoCompletionEmit (g : Session → Session) : Prop :=
  ∀ s : Session, completionMsg ∉ s.log → completionMsg ∉ (g s).log

/-- The reservation form used by concrete witnesses: Suseo to Busan,
two adults and one child. -/
def demoForm : ReservationForm := ⟨"수서", "부산", "20251001", "120000", 2, 1, 0, 0, 0⟩

/-- A session that has not been started yet. -/
def freshSession : Session := ⟨false, true, false, []⟩

theorem configGet_configSet_self (c : Config) (k v : String) :
    configGet (configSet c k v) k = some v := by
  induction c with
  | nil => simp [configSet, configGet]
  | cons p rest ih =>
    by_cases h : p.1 = k
    · simp [configSet, h, configGet]
    · simp [configSet, h, configGet, ih]

theorem configGet_configSet_other (c : Config) (k k' v : String) (hne : k ≠ k') :
    configGet (configSet c k v) k' = configGet c k' := by
  induction c with
  | nil => simp [configSet, configGet, hne]
  | cons p rest ih =>
    by_cases h : p.1 = k
    · simp [configSet, h, configGet, hne]
    · by_cases h' : p.1 = k'
      · simp [configSet, h, configGet, h', Ne.symm hne]
      · simp [configSet, h, configGet, h', ih]

theorem get_password_set_password (f : FileState) (s u s' u' v : String) :
    get_password (set_password f s u v) s' u' =
      if flatKey s u = flatKey s' u' then some v
      else get_password f s' u' := by
  by_cases h : flatKey s u = flatKey s' u'
  · simp [get_password, set_password, loadConfig, h, configGet_configSet_self]
  · simp [get_password, set_password, loadConfig, h, configGet_configSet_other _ _ _ _ h]

theorem get_password_set_password_self (f : FileState) (s u v : String) :
    get_password (set_password f s u v) s u = some v := by
  simp [get_password_set_password]

theorem get_password_set_password_ne (f : FileState) (s u s' u' v : String)
    (h : flatKey s u ≠ flatKey s' u') :
    get_password (set_password f s u v) s' u' = get_password f s' u' := by
  simp [get_password_set_password, h]

/-- The flattened key determines the username once the service is fixed:
`s ++ ":" ++ u = s ++ ":" ++ u'` forces `u = u'`. -/
theorem flatKey_right_inj (s u u' : String) (h : flatKey s u = flatKey s u') : u = u' := by
  have hd := congrArg String.data h
  simp only [flatKey, String.data_append] at hd
  exact String.ext (List.append_cancel_left hd)

theorem flatKey_railKey_ne (rt : RailType) (u u' : String) (h : u ≠ u') :
    flatKey (railKey rt) u ≠ flatKey (railKey rt) u' :=
  fun hc => h (flatKey_right_inj (railKey rt) u u' hc)

theorem mem_log_logMessage (x : String) (s : Session) (m : String) :
    x ∈ (logMessage s m).log ↔ x ∈ s.log ∨ x = m := by
  simp [logMessage]

theorem stop_booking_isRunning (s : Session) : (stop_booking s).isRunning = false := rfl

theorem mem_log_stop_booking (x : String) (s : Session) :
    x ∈ (stop_booking s).log ↔ x ∈ s.log ∨ x = stopMsg := by
  simp [stop_booking, mem_log_logMessage]

theorem cancelSafe_stop_booking : CancelSafe stop_booking := by
  intro s _ hlog
  refine ⟨rfl, ?_⟩
  rw [mem_log_stop_booking]
  rintro (h | h)
  · exact hlog h
  · exact absurd h (by decide)

theorem cancelSafe_runnerSteps : ∀ g ∈ runnerSteps, CancelSafe g := by
  intro g hg
  simp only [runnerSteps, List.mem_cons, List.not_mem_nil, or_false] at hg
  rcases hg with h | h | h | h | h | h | h | h <;> subst h <;> intro s hrun hlog
  · exact ⟨hrun, by rw [mem_log_logMessage]; rintro (h | h); exacts [hlog h, absurd h (by decide)]⟩
  · exact ⟨hrun, by rw [mem_log_logMessage]; rintro (h | h); exacts [hlog h, absurd h (by decide)]⟩
  · exact ⟨hrun, by rw [mem_log_logMessage]; rintro (h | h); exacts [hlog h, absurd h (by decide)]⟩
  · exact ⟨hrun, by rw [mem_log_logMessage]; rintro (h | h); exacts [hlog h, absurd h (by decide)]⟩
  · exact ⟨hrun, by rw [mem_log_logMessage]; rintro (h | h); exacts [hlog h, absurd h (by decide)]⟩
  · exact ⟨hrun, hlog⟩
  · simpa [pollCompletion, hrun] using hlog
  · simpa [finallyPoll, hrun] using hlog

theorem noCompletionEmit_take6 : ∀ g ∈ runnerSteps.take 6, NoCompletionEmit g := by
  intro g hg
  simp only [runnerSteps, List.take, List.mem_cons, List.not_mem_nil, or_false] at hg
  rcases hg with h | h | h | h | h | h <;> subst h <;> intro s hlog
  · rw [mem_log_logMessage]; rintro (h | h); exacts [hlog h, absurd h (by decide)]
  · rw [mem_log_logMessage]; rintro (h | h); exacts [hlog h, absurd h (by decide)]
  · rw [mem_log_logMessage]; rintro (h | h); exacts [hlog h, absurd h (by decide)]
  · rw [mem_log_logMessage]; rintro (h | h); exacts [hlog h, absurd h (by decide)]
  · rw [mem_log_logMessage]; rintro (h | h); exacts [hlog h, absurd h (by decide)]
  · exact hlog

theorem runSteps_cancelSafe (steps : List (Session → Session))
    (h : ∀ g ∈ steps, CancelSafe g) : CancelSafe (runSteps steps) := by
  induction steps with
  | nil => intro s hrun hlog; exact ⟨hrun, hlog⟩
  | cons g gs ih =>
    intro s hrun hlog
    have hg := h g (List.mem_cons_self g gs) s hrun hlog
    have hrest : ∀ g' ∈ gs, CancelSafe g' := fun g' hg' => h g' (List.mem_cons_of_mem g hg')
    simpa [runSteps] using ih hrest (g s) hg.1 hg.2

theorem runSteps_noCompletionEmit (steps : List (Session → Session))
    (h : ∀ g ∈ steps, NoCompletionEmit g) : NoCompletionEmit (runSteps steps) := by
  induction steps with
  | nil => intro s hlog; exact hlog
  | cons g gs ih =>
    intro s hlog
    have hg := h g (List.mem_cons_self g gs) s hlog
    have hrest : ∀ g' ∈ gs, NoCompletionEmit g' := fun g' hg' => h g' (List.mem_cons_of_mem g hg')
    simpa [runSteps] using ih hrest (g s) hg

/-- C2: on the file-based store, `set_password(service, key, value)`
followed by `get_password(service, key)` returns `value`, for every
`(service, key, value)` triple and every prior file state (the file
write is modelled as succeeding). -/
theorem set_get_roundtrip (f : FileState) (service key value : String) :
    get_password (set_password f service key value) service key = some value :=
  get_password_set_password_self f service key value

/-- C3: `get_password` never raises — a missing or unparseable config
file is read as the empty store, so every get returns absent; and a
subsequent `set_password` rewrites the file as a parsed (valid) store
from which the stored value is readable. -/
theorem get_password_corrupt_recovery (service key value : String) :
    get_password FileState.corrupt service key = none ∧
    get_password FileState.missing service key = none ∧
    set_password FileState.corrupt service key value =
      FileState.valid [(flatKey service key, value)] ∧
    get_password (set_password FileState.corrupt service key value) service key = some value :=
  ⟨rfl, rfl, rfl, get_password_set_password_self _ _ _ _⟩

/-- C4: saving an empty station selection is rejected (`save_stations`
returns with an error and success flag false) and the persisted state is
bit-for-bit unchanged, so a `get_station` load after the rejected save
equals a load before it. -/
theorem save_stations_empty_rejected (rt : RailType) (f : FileState) :
    save_stations rt [] f = (f, false) ∧
    get_station rt (save_stations rt [] f).1 = get_station rt f := by
  constructor <;> simp [save_stations]

/-- C10: the store flattens `(service, key)` to the single string
`service ++ ":" ++ key`, so a set leaves another get unchanged exactly
when the flattened strings differ; the distinct pairs ("a", "b:c") and
("a:b", "c") flatten to the same string, so a set on the first changes
the value read for the second. -/
theorem set_password_frame_collision :
    (∀ (f : FileState) (s u s' u' v : String),
        get_password (set_password f s u v) s' u' =
          if flatKey s u = flatKey s' u' then some v else get_password f s' u') ∧
    ("a", "b:c") ≠ (("a:b", "c") : String × String) ∧
    flatKey "a" "b:c" = flatKey "a:b" "c" ∧
    get_password (set_password FileState.missing "a" "b:c" "v1") "a:b" "c" = some "v1" :=
  ⟨get_password_set_password, by decide, by decide, rfl⟩

/-- C5 (counterexample): the claim that `get_station` returns a selection
that is a subset of the catalog for every stored value of the "station"
key is false: `get_station` does not validate the comma-separated
components, so a stored value "X" yields the selection ["X"], which is
not contained in the SRT catalog. -/
theorem get_station_subset_counterexample :
    ¬ (∀ x ∈ (get_station RailType.SRT
          (set_password FileState.missing "SRT" "station" "X")).2,
        x ∈ (get_station RailType.SRT
          (set_password FileState.missing "SRT" "station" "X")).1) := by
  decide

/-- C5 (amended): `get_station` always returns the fixed catalog as the
first component; when the stored "station" value is absent or empty the
selection is the carrier default, which is a subset of the catalog; when
a value is stored the selection is its comma-split, unvalidated — it is
a subset of the catalog exactly when each component is a catalog member. -/
theorem get_station_spec (rt : RailType) (f : FileState) :
    (get_station rt f).1 = STATIONS rt ∧
    (∀ x ∈ DEFAULT_STATIONS rt, x ∈ STATIONS rt) ∧
    (optFalsy (get_password f (railKey rt) "station") = true →
      (get_station rt f).2 = DEFAULT_STATIONS rt) ∧
    (∀ v : String, get_password f (railKey rt) "station" = some v → v ≠ "" →
      ((get_station rt f).2 = pySplitComma v ∧
        ((∀ x ∈ pySplitComma v, x ∈ STATIONS rt) →
          ∀ x ∈ (get_station rt f).2, x ∈ STATIONS rt))) := by
  refine ⟨?_, ?_, ?_, ?_⟩
  · by_cases h : optFalsy (get_password f (railKey rt) "station") <;> simp [get_station, h]
  · cases rt <;> decide
  · intro h; simp [get_station, h]
  · intro v hv hne
    constructor
    · simp [get_station, hv, optFalsy, hne]
    · intro hall x hx
      have : (get_station rt f).2 = pySplitComma v := by simp [get_station, hv, optFalsy, hne]
      rw [this] at hx
      exact hall x hx

/-- C1: `start_booking` rejects with a validation error exactly when the
departure station equals the arrival station, or the total passenger
count is 0, or it is at least 10; on rejection the store is untouched,
the session is untouched, and no background work is recorded. -/
theorem start_booking_rejects_iff (rt : RailType) (p : ReservationForm)
    (f : FileState) (s : Session) :
    ((start_booking rt p f s).error.isSome ↔
      (p.departure = p.arrival ∨ totalPassengers p = 0 ∨ 10 ≤ totalPassengers p)) ∧
    ((start_booking rt p f s).error.isSome →
      (start_booking rt p f s).store = f ∧
      (start_booking rt p f s).session = s ∧
      (start_booking rt p f s).events = []) := by
  by_cases h1 : p.departure = p.arrival
  · simp [start_booking, validate, h1]
  · by_cases h2 : totalPassengers p = 0
    · simp [start_booking, validate, h1, h2]
    · by_cases h3 : 10 ≤ totalPassengers p
      · simp [start_booking, validate, h1, h2, h3]
      · simp [start_booking, validate, h1, h2, h3]

/-- C1 (witness): a concrete call with departure equal to arrival is
rejected. -/
theorem start_booking_rejects_iff_witness :
    (start_booking RailType.SRT ⟨"수서", "수서", "20251001", "120000", 1, 0, 0, 0, 0⟩
      FileState.missing ⟨false, true, false, []⟩).error.isSome ∧
    (start_booking RailType.SRT ⟨"수서", "수서", "20251001", "120000", 1, 0, 0, 0, 0⟩
      FileState.missing ⟨false, true, false, []⟩).store = FileState.missing :=
  ⟨(start_booking_rejects_iff RailType.SRT _ FileState.missing ⟨false, true, false, []⟩).1.mpr
      (Or.inl rfl),
   ((start_booking_rejects_iff RailType.SRT _ FileState.missing ⟨false, true, false, []⟩).2
      ((start_booking_rejects_iff RailType.SRT _ FileState.missing
        ⟨false, true, false, []⟩).1.mpr (Or.inl rfl))).1⟩

/-- C7: when the stored account id or password is absent,
`run_reservation` logs the credential failure, terminates the session
(the running flag is cleared), and never constructs the Rail Client —
so no login and no search is attempted. -/
theorem run_reservation_missing_credentials (rt : RailType) (f : FileState) (s : Session)
    (h : get_password f (railKey rt) "id" = none ∨ get_password f (railKey rt) "pass" = none) :
    (run_reservation_auth rt f s).railConstructed = false ∧
    errNoLogin ∈ (run_reservation_auth rt f s).session.log ∧
    (run_reservation_auth rt f s).session.isRunning = false := by
  have hcond : (optFalsy (get_password f (railKey rt) "id") ||
      optFalsy (get_password f (railKey rt) "pass")) = true := by
    rcases h with h | h <;> simp [h, optFalsy]
  refine ⟨?_, ?_, ?_⟩ <;>
    simp [run_reservation_auth, hcond, mem_log_stop_booking, mem_log_logMessage,
      stop_booking_isRunning]

/-- C7 (witness): on the empty (missing-file) store, the runner fails
without constructing the Rail Client. -/
theorem run_reservation_missing_credentials_witness :
    (run_reservation_auth RailType.SRT FileState.missing
      ⟨true, false, true, []⟩).railConstructed = false ∧
    errNoLogin ∈ (run_reservation_auth RailType.SRT FileState.missing
      ⟨true, false, true, []⟩).session.log ∧
    (run_reservation_auth RailType.SRT FileState.missing
      ⟨true, false, true, []⟩).session.isRunning = false :=
  run_reservation_missing_credentials RailType.SRT FileState.missing
    ⟨true, false, true, []⟩ (Or.inl rfl)

/-- C9 (counterexample): `stop_booking` is not idempotent on the
observable session state: a second call on an already-stopped session
appends another stop entry to the progress log. -/
theorem stop_booking_not_idempotent :
    stop_booking (stop_booking ⟨true, false, true, []⟩) ≠
      stop_booking ⟨true, false, true, []⟩ := by
  decide

/-- C9 (amended): `stop_booking` is idempotent on the cancellation flag
and the start/stop control state — a repeated call leaves them unchanged
— but every call, including one on an already-terminated session,
appends one more stop entry to the progress log.  (In the GUI a second
press is normally impossible: the first call disables the stop button.) -/
theorem stop_booking_idempotent_on_flag (s : Session) :
    (stop_booking (stop_booking s)).isRunning = (stop_booking s).isRunning ∧
    (stop_booking (stop_booking s)).startEnabled = (stop_booking s).startEnabled ∧
    (stop_booking (stop_booking s)).stopEnabled = (stop_booking s).stopEnabled ∧
    (stop_booking (stop_booking s)).log = (stop_booking s).log ++ [stopMsg] := by
  simp [stop_booking, logMessage]

/-- C6: whenever validation passes, `start_booking` persists all nine
reservation parameter fields to the store, and the `save_settings` call
is recorded before the background thread start in the event trace — the
parameters are saved at session start, independent of the session's
eventual outcome. -/
theorem start_booking_persists_before_thread (rt : RailType) (p : ReservationForm)
    (f : FileState) (s : Session) (h : validate p = none) :
    (start_booking rt p f s).error = none ∧
    (start_booking rt p f s).events = [Step.settingsSaved, Step.threadStarted] ∧
    get_password (start_booking rt p f s).store (railKey rt) "departure" = some p.departure ∧
    get_password (start_booking rt p f s).store (railKey rt) "arrival" = some p.arrival ∧
    get_password (start_booking rt p f s).store (railKey rt) "date" = some p.date ∧
    get_password (start_booking rt p f s).store (railKey rt) "time" = some p.time ∧
    get_password (start_booking rt p f s).store (railKey rt) "adult" =
      some (toString p.adult) ∧
    get_password (start_booking rt p f s).store (railKey rt) "child" =
      some (toString p.child) ∧
    get_password (start_booking rt p f s).store (railKey rt) "senior" =
      some (toString p.senior) ∧
    get_password (start_booking rt p f s).store (railKey rt) "disability1to3" =
      some (toString p.disability1to3) ∧
    get_password (start_booking rt p f s).store (railKey rt) "disability4to6" =
      some (toString p.disability4to6) := by
  have hst : (start_booking rt p f s).store = save_settings rt p f := by
    simp [start_booking, h]
  have herr : (start_booking rt p f s).error = none := by simp [start_booking, h]
  have hev : (start_booking rt p f s).events = [Step.settingsSaved, Step.threadStarted] := by
    simp [start_booking, h]
  refine ⟨herr, hev, ?_, ?_, ?_, ?_, ?_, ?_, ?_, ?_, ?_⟩ <;>
    rw [hst] <;> cases rt <;>
      simp [save_settings, get_password_set_password, flatKey, railKey]

/-- C6 (witness): the concrete demo form passes validation and every
field is readable from the store `start_booking` produces. -/
theorem start_booking_persists_before_thread_witness :
    (start_booking RailType.SRT demoForm FileState.missing freshSession).error = none ∧
    (start_booking RailType.SRT demoForm FileState.missing freshSession).events =
      [Step.settingsSaved, Step.threadStarted] ∧
    get_password (start_booking RailType.SRT demoForm FileState.missing freshSession).store
      (railKey RailType.SRT) "departure" = some demoForm.departure ∧
    get_password (start_booking RailType.SRT demoForm FileState.missing freshSession).store
      (railKey RailType.SRT) "arrival" = some demoForm.arrival ∧
    get_password (start_booking RailType.SRT demoForm FileState.missing freshSession).store
      (railKey RailType.SRT) "date" = some demoForm.date ∧
    get_password (start_booking RailType.SRT demoForm FileState.missing freshSession).store
      (railKey RailType.SRT) "time" = some demoForm.time ∧
    get_password (start_booking RailType.SRT demoForm FileState.missing freshSession).store
      (railKey RailType.SRT) "adult" = some (toString demoForm.adult) ∧
    get_password (start_booking RailType.SRT demoForm FileState.missing freshSession).store
      (railKey RailType.SRT) "child" = some (toString demoForm.child) ∧
    get_password (start_booking RailType.SRT demoForm FileState.missing freshSession).store
      (railKey RailType.SRT) "senior" = some (toString demoForm.senior) ∧
    get_password (start_booking RailType.SRT demoForm FileState.missing freshSession).store
      (railKey RailType.SRT) "disability1to3" = some (toString demoForm.disability1to3) ∧
    get_password (start_booking RailType.SRT demoForm FileState.missing freshSession).store
      (railKey RailType.SRT) "disability4to6" = some (toString demoForm.disability4to6) :=
  start_booking_persists_before_thread RailType.SRT demoForm FileState.missing freshSession
    (by decide)

/-- C8: once `stop_booking` has cleared the running flag — at any point
before the runner's completion poll — the next poll point observes it:
the completion entry is never emitted and the session ends cancelled
(flag cleared), never completed, no matter where in the step sequence
the stop landed. -/
theorem cancel_before_poll_not_completed (i : Nat) (s : Session)
    (hi : i ≤ 6) (h0 : completionMsg ∉ s.log) :
    (execWithStop i s).isRunning = false ∧ completionMsg ∉ (execWithStop i s).log := by
  have htake : ∀ g ∈ runnerSteps.take i, NoCompletionEmit g := by
    intro g hg
    apply noCompletionEmit_take6
    have heq : runnerSteps.take i = (runnerSteps.take 6).take i := by
      rw [List.take_take, Nat.min_eq_left hi]
    rw [heq] at hg
    exact List.take_subset _ _ hg
  have hpre : completionMsg ∉ (runSteps (runnerSteps.take i) s).log :=
    runSteps_noCompletionEmit _ htake s h0
  have h1 : (stop_booking (runSteps (runnerSteps.take i) s)).isRunning = false :=
    stop_booking_isRunning _
  have h2 : completionMsg ∉ (stop_booking (runSteps (runnerSteps.take i) s)).log := by
    rw [mem_log_stop_booking]
    rintro (h | h)
    · exact hpre h
    · exact absurd h (by decide)
  simp only [execWithStop]
  exact runSteps_cancelSafe (runnerSteps.drop i)
    (fun g hg => cancelSafe_runnerSteps g (List.drop_subset _ _ hg)) _ h1 h2

/-- C8 (witness): a stop landing immediately after start (before any
runner step) yields a cancelled session with no completion entry. -/
theorem cancel_before_poll_not_completed_witness :
    (execWithStop 0 ⟨true, false, true, []⟩).isRunning = false ∧
    completionMsg ∉ (execWithStop 0 ⟨true, false, true, []⟩).log :=
  cancel_before_poll_not_completed 0 ⟨true, false, true, []⟩ (by decide) (by simp)
